import Mathlib

/-!
Verification of the generic entity-attribute factory system of the
robottelo test suite (`robottelo.factories` / `robottelo.orm`).

The repository ships only the unit tests of this subsystem
(`tests/robottelo/test_factories.py`); the modules `robottelo/factories.py`
and `robottelo/orm.py` themselves are not present.  The definitions below
are therefore modelled from the specification, with the shipped tests used
as concrete scenarios.  Schemas are association lists from field names to
field descriptors; the mutable class-level `Meta` remap tables are modelled
by explicit state passing (a `Meta` value supplied at each call), and the
random value generator is modelled by deterministic seeded functions.
-/

namespace Robottelo

/-- Modelled from the spec: the value domain tags of a Field Descriptor
(`kind`), restricted to the kinds exercised by the shipped tests
(`orm.StringField`, `orm.IntegerField`) plus text and boolean. -/
inductive FieldKind where
  | string
  | text
  | integer
  | boolean
deriving DecidableEq

/-- Modelled from the spec: a generated or caller-supplied attribute value. -/
inductive Value where
  | str (s : String)
  | int (n : Int)
  | bool (b : Bool)
deriving DecidableEq

/-- Modelled from the spec: a Field Descriptor (`orm.Field` and its
subclasses, missing from the sources): a pure data holder exposing `kind`,
`required` (boolean, default false) and an optional pre-supplied
`default` value. -/
structure Field where
  kind : FieldKind
  required : Bool := false
  default : Option Value := none
deriving DecidableEq

/-- Modelled from the spec: `factories._is_required`, the requiredness
predicate over a field descriptor. -/
def _is_required (f : Field) : Bool :=
  f.required

/-- Modelled from the spec: the per-interface name-remapping tables held on
an entity's mutable class-level `Meta` object (`orm.Entity.Meta`, missing
from the sources).  Because tests reassign these tables after the schema
class is defined, `Meta` is passed explicitly at each call rather than
stored in the factory. -/
structure Meta where
  api_names : List (String × String) := []
  cli_names : List (String × String) := []
deriving DecidableEq

/-- Modelled from the spec: an Entity Schema (`orm.Entity`, missing from the
sources): an association list from field name to Field Descriptor. -/
structure Entity where
  fields : List (String × Field)
deriving DecidableEq

/-- Modelled from the spec: `Entity.get_fields`, returning the declared
field set; must return an empty mapping for a schema with no fields. -/
def Entity.get_fields (e : Entity) : List (String × Field) :=
  e.fields

/-- Modelled from the spec: the interface selector of a factory, one of
default, API or CLI. -/
inductive Interface where
  | default
  | api
  | cli
deriving DecidableEq

/-- Modelled from the spec: parsing of the free-form interface string
accepted by the `Factory` constructor; any string outside
{default, API, CLI} is invalid. -/
def parse_interface (s : String) : Option Interface :=
  if s = "default" then some Interface.default
  else if s = "API" then some Interface.api
  else if s = "CLI" then some Interface.cli
  else none

/-- Modelled from the spec: the error taxonomy of the factory system.
`unknownFieldError` is raised for an override key absent from the
interface-specific field set; `invalidInterfaceError` at construction for
an interface selector outside {default, API, CLI}. -/
inductive FactoryError where
  | unknownFieldError
  | invalidInterfaceError
deriving DecidableEq

/-- Modelled from the spec: `factories.Factory` (missing from the sources):
binds one Entity Schema and one interface selector; holds no other state,
in particular it does not capture the schema's `Meta` remap tables. -/
structure Factory where
  entity : Entity
  interface : Interface
deriving DecidableEq

/-- Modelled from the spec: the `Factory` constructor with a free-form
interface string; fails with `InvalidInterfaceError` for selectors outside
{default, API, CLI}, before any attribute production. -/
def mkFactory (e : Entity) (s : String) : Except FactoryError Factory :=
  match parse_interface s with
  | some i => Except.ok ⟨e, i⟩
  | none => Except.error FactoryError.invalidInterfaceError

/-- Modelled from the spec: `factories._populate_string_field` (missing
from the sources): generates a random string of length at least 1; the
randomness source is modelled by a deterministic seed. -/
def _populate_string_field (seed : Nat) : String :=
  String.mk (List.replicate (seed % 20 + 1) 'a')

/-- Modelled from the spec: integer value generation, a value within a
representable signed range, seeded deterministically. -/
def _populate_integer_field (seed : Nat) : Int :=
  Int.ofNat (seed % 1000)

/-- Modelled from the spec: boolean value generation, seeded
deterministically. -/
def _populate_boolean_field (seed : Nat) : Bool :=
  seed % 2 == 0

/-- Modelled from the spec: the Value Generator dispatch, producing one
syntactically valid value for a field kind. -/
def genValue (k : FieldKind) (seed : Nat) : Value :=
  match k with
  | FieldKind.string => Value.str (_populate_string_field seed)
  | FieldKind.text => Value.str (_populate_string_field seed)
  | FieldKind.integer => Value.int (_populate_integer_field seed)
  | FieldKind.boolean => Value.bool (_populate_boolean_field seed)

/-- Modelled from the spec: renaming of one field entry by a remap table:
an entry with a remapped name in the table has its key replaced, keeping
the descriptor; an entry absent from the table passes through. -/
def remapName (table : List (String × String)) (nf : String × Field) :
    String × Field :=
  match table.lookup nf.1 with
  | some r => (r, nf.2)
  | none => nf

/-- Modelled from the spec: `Factory._customize_field_names` (missing from
the sources): under API, every canonical field name with an entry in the
schema's `api_names` is replaced by its remapped name, preserving the
descriptor; names without an entry pass through; symmetric for CLI with
`cli_names`; under the default interface fields pass through unchanged.
The `Meta` tables are read at invocation time. -/
def _customize_field_names (m : Meta) (iface : Interface)
    (fields : List (String × Field)) : List (String × Field) :=
  match iface with
  | Interface.default => fields
  | Interface.api => fields.map (remapName m.api_names)
  | Interface.cli => fields.map (remapName m.cli_names)

/-- Modelled from the spec: the interface-specific field-name view a
factory computes at each call, reading the schema's fields and the current
`Meta` remap tables. -/
def fieldView (m : Meta) (fac : Factory) : List (String × Field) :=
  _customize_field_names m fac.interface fac.entity.get_fields

/-- Modelled from the spec: the per-field population policy of
`Factory.attributes` step 3: the override if supplied, else the field's
`default` if present, else a freshly generated value for a required field;
optional fields with no override and no default are omitted. -/
def includeField (overrides : List (String × Value)) (seed : Nat)
    (nf : String × Field) : Option (String × Value) :=
  match overrides.lookup nf.1 with
  | some v => some (nf.1, v)
  | none =>
      match nf.2.default with
      | some v => some (nf.1, v)
      | none =>
          if nf.2.required then some (nf.1, genValue nf.2.kind seed) else none

/-- Modelled from the spec: `Factory.attributes` (missing from the
sources): computes the interface-specific field view, validates that every
override key exists in it (failing with `UnknownFieldError` otherwise, with
no partial result), and returns the flat attribute mapping. -/
def attributes (m : Meta) (fac : Factory) (seed : Nat)
    (overrides : List (String × Value)) :
    Except FactoryError (List (String × Value)) :=
  if overrides.all (fun ov => ((fieldView m fac).lookup ov.1).isSome) then
    Except.ok ((fieldView m fac).filterMap (includeField overrides seed))
  else
    Except.error FactoryError.unknownFieldError

/-- Modelled from the spec: `attributes` as a state-passing computation
over the mutable `Meta` state, making explicit that a call reads the state
and returns it unchanged (side-effect-free apart from consuming entropy,
which the seed models). -/
def attributesSt (fac : Factory) (seed : Nat)
    (overrides : List (String × Value)) (m : Meta) :
    Except FactoryError (List (String × Value)) × Meta :=
  (attributes m fac seed overrides, m)

/-- The field descriptor of `NonEmptyEntity.name`: a required string
field, as declared in the shipped tests. -/
def nameField : Field :=
  { kind := FieldKind.string, required := true }

/-- The field descriptor of `NonEmptyEntity.cost`: an optional integer
field, as declared in the shipped tests. -/
def costField : Field :=
  { kind := FieldKind.integer }

/-- The sample entity with no fields from the shipped tests. -/
def EmptyEntity : Entity :=
  ⟨[]⟩

/-- The sample entity with a required string field `name` and an optional
integer field `cost` from the shipped tests. -/
def NonEmptyEntity : Entity :=
  ⟨[("name", nameField), ("cost", costField)]⟩

/-- An entry with a remapped name in the table has its key replaced. -/
theorem remapName_some {t : List (String × String)} {c r : String}
    {f : Field} (h : t.lookup c = some r) : remapName t (c, f) = (r, f) := by
  simp [remapName, h]

/-- An entry absent from the remap table passes through unchanged. -/
theorem remapName_none {t : List (String × String)} {c : String}
    {f : Field} (h : t.lookup c = none) : remapName t (c, f) = (c, f) := by
  simp [remapName, h]

/-- A canonical name that the table remaps (and that no field entry is
remapped onto) no longer occurs among the keys after remapping: the key is
replaced, not kept alongside its remapped form. -/
theorem remapName_key_replaced {t : List (String × String)}
    {fields : List (String × Field)} {c r : String}
    (h1 : t.lookup c = some r)
    (h2 : ∀ nf ∈ fields, t.lookup nf.1 ≠ some c) :
    c ∉ (fields.map (remapName t)).map Prod.fst := by
  intro hmem
  obtain ⟨b, hb, hbc⟩ := List.mem_map.mp hmem
  obtain ⟨nf, hnf, hre⟩ := List.mem_map.mp hb
  cases hl : t.lookup nf.1 with
  | some x =>
      have hx : b = (x, nf.2) := by
        rw [← hre]
        simp [remapName, hl]
      rw [hx] at hbc
      simp at hbc
      apply h2 nf hnf
      rw [hl, hbc]
  | none =>
      have hx : b = nf := by
        rw [← hre]
        simp [remapName, hl]
      rw [hx] at hbc
      rw [hbc] at hl
      rw [hl] at h1
      exact Option.noConfusion h1

/-- A remap-table entry whose key matches no field entry has no effect. -/
theorem remapName_head_irrelevant {c r : String} {rest : List (String × String)}
    {nf : String × Field} (h : nf.1 ≠ c) :
    remapName ((c, r) :: rest) nf = remapName rest nf := by
  have hb : (nf.1 == c) = false := beq_eq_false_iff_ne.mpr h
  simp [remapName, List.lookup, hb]

/-- C1: for the `NonEmptyEntity` schema (required string `name`, optional
integer `cost`), a default-interface factory's `attributes` with no
overrides returns a mapping containing exactly the key `name`, bound to a
generated string of length at least 1; the optional `cost` is absent. -/
theorem attributes_required_generated (m : Meta) (seed : Nat) :
    attributes m ⟨NonEmptyEntity, Interface.default⟩ seed [] =
      Except.ok [("name", Value.str (_populate_string_field seed))] ∧
    1 ≤ (_populate_string_field seed).length := by
  refine ⟨rfl, ?_⟩
  simp [_populate_string_field]

/-- C2: caller-supplied overrides always win over generation and defaults:
whatever the `required` and `default` settings of the `name` field, an
override for `name` appears verbatim in the result; and on
`NonEmptyEntity`, overriding both fields returns exactly
`{name: "x", cost: 5}`, the optional field included. -/
theorem attributes_overrides_win (req : Bool) (d : Option Value) (m : Meta)
    (seed : Nat) (x : Value) :
    attributes m
        ⟨⟨[("name", ⟨FieldKind.string, req, d⟩), ("cost", costField)]⟩,
          Interface.default⟩ seed [("name", x)] =
      Except.ok [("name", x)] ∧
    attributes m ⟨NonEmptyEntity, Interface.default⟩ seed
        [("name", Value.str "x"), ("cost", Value.int 5)] =
      Except.ok [("name", Value.str "x"), ("cost", Value.int 5)] :=
  ⟨rfl, rfl⟩

/-- C7: constructing a factory with an interface selector outside
{default, API, CLI} fails with `InvalidInterfaceError` at construction
time, before any attribute production. -/
theorem mkFactory_invalid_interface (e : Entity) (s : String)
    (h1 : s ≠ "default") (h2 : s ≠ "API") (h3 : s ≠ "CLI") :
    mkFactory e s = Except.error FactoryError.invalidInterfaceError := by
  simp [mkFactory, parse_interface, h1, h2, h3]

/-- Witness for C7: the selector `"XML"` is rejected at construction. -/
theorem mkFactory_invalid_interface_witness :
    mkFactory EmptyEntity "XML" =
      Except.error FactoryError.invalidInterfaceError :=
  mkFactory_invalid_interface EmptyEntity "XML" (by decide) (by decide)
    (by decide)

/-- C8: a field descriptor's `required` attribute defaults to false: a
field constructed without `required` is not required, one with
`required := false` is not required, one with `required := true` is. -/
theorem is_required_semantics (k : FieldKind) (d : Option Value) :
    _is_required { kind := k } = false ∧
    _is_required ⟨k, false, d⟩ = false ∧
    _is_required ⟨k, true, d⟩ = true :=
  ⟨rfl, rfl, rfl⟩

/-- C9: `attributes` is a pure request/response transform: a call returns
the `Meta` state unchanged (no mutation observable by a later call), and a
later call's result is the same whether or not an earlier call ran; with
the same schema, interface, overrides and seed the result is identical. -/
theorem attributes_pure (m : Meta) (f f' : Factory) (seed seed' : Nat)
    (ov ov' : List (String × Value)) :
    (attributesSt f seed ov m).2 = m ∧
    (attributesSt f seed ov ((attributesSt f' seed' ov' m).2)).1
      = (attributesSt f seed ov m).1 :=
  ⟨rfl, rfl⟩

/-- C3: an override key absent from the interface-specific field set makes
`attributes` fail with `UnknownFieldError`, synchronously and with no
partial result mapping. -/
theorem attributes_unknown_field (m : Meta) (fac : Factory) (seed : Nat)
    (overrides : List (String × Value)) (k : String) (v : Value)
    (hk : (k, v) ∈ overrides)
    (hnone : (fieldView m fac).lookup k = none) :
    attributes m fac seed overrides =
      Except.error FactoryError.unknownFieldError := by
  have hall : overrides.all
      (fun ov => ((fieldView m fac).lookup ov.1).isSome) = false := by
    cases hb : overrides.all
        (fun ov => ((fieldView m fac).lookup ov.1).isSome) with
    | false => rfl
    | true =>
        have hv := List.all_eq_true.mp hb (k, v) hk
        rw [hnone] at hv
        simp at hv
  simp [attributes, hall]

/-- Witness for C3: `Factory(EmptyEntity).attributes(no_such_field=...)`
fails with `UnknownFieldError`. -/
theorem attributes_unknown_field_witness :
    attributes ⟨[], []⟩ ⟨EmptyEntity, Interface.default⟩ 0
        [("no_such_field", Value.str "bad juju")] =
      Except.error FactoryError.unknownFieldError :=
  attributes_unknown_field ⟨[], []⟩ ⟨EmptyEntity, Interface.default⟩ 0
    [("no_such_field", Value.str "bad juju")] "no_such_field"
    (Value.str "bad juju") (by simp) rfl

/-- C4: remapping is keyed on the interface: under API every (canonical,
remapped) pair in both `api_names` and the field set has its key replaced
— the remapped entry carries the same descriptor and the canonical key no
longer occurs among the output keys (given no other field is remapped onto
it) — and canonical names not in `api_names` pass through; symmetrically
for CLI with `cli_names`; `api_names` has no effect under CLI nor
`cli_names` under API; under default no remapping occurs. -/
theorem customize_field_names_remap (m : Meta)
    (fields : List (String × Field)) (a cs : List (String × String))
    (c n c2 n2 r r2 : String) (f1 f2 f3 f4 : Field)
    (h1 : m.api_names.lookup c = some r) (h2 : (c, f1) ∈ fields)
    (h3 : m.api_names.lookup n = none) (h4 : (n, f2) ∈ fields)
    (h5 : m.cli_names.lookup c2 = some r2) (h6 : (c2, f3) ∈ fields)
    (h7 : m.cli_names.lookup n2 = none) (h8 : (n2, f4) ∈ fields)
    (h9 : ∀ nf ∈ fields, m.api_names.lookup nf.1 ≠ some c)
    (h10 : ∀ nf ∈ fields, m.cli_names.lookup nf.1 ≠ some c2) :
    (r, f1) ∈ _customize_field_names m Interface.api fields ∧
    c ∉ (_customize_field_names m Interface.api fields).map Prod.fst ∧
    (n, f2) ∈ _customize_field_names m Interface.api fields ∧
    (r2, f3) ∈ _customize_field_names m Interface.cli fields ∧
    c2 ∉ (_customize_field_names m Interface.cli fields).map Prod.fst ∧
    (n2, f4) ∈ _customize_field_names m Interface.cli fields ∧
    _customize_field_names ⟨a, m.cli_names⟩ Interface.cli fields
      = _customize_field_names m Interface.cli fields ∧
    _customize_field_names ⟨m.api_names, cs⟩ Interface.api fields
      = _customize_field_names m Interface.api fields ∧
    _customize_field_names m Interface.default fields = fields := by
  refine ⟨?_, ?_, ?_, ?_, ?_, ?_, rfl, rfl, rfl⟩
  · have hm := List.mem_map_of_mem (remapName m.api_names) h2
    rw [remapName_some h1] at hm
    exact hm
  · show c ∉ (fields.map (remapName m.api_names)).map Prod.fst
    exact remapName_key_replaced h1 h9
  · have hm := List.mem_map_of_mem (remapName m.api_names) h4
    rw [remapName_none h3] at hm
    exact hm
  · have hm := List.mem_map_of_mem (remapName m.cli_names) h6
    rw [remapName_some h5] at hm
    exact hm
  · show c2 ∉ (fields.map (remapName m.cli_names)).map Prod.fst
    exact remapName_key_replaced h5 h10
  · have hm := List.mem_map_of_mem (remapName m.cli_names) h8
    rw [remapName_none h7] at hm
    exact hm

/-- Witness for C4: the remap tables of the shipped tests applied to the
`NonEmptyEntity` field set. -/
theorem customize_field_names_remap_witness :
    ("customized", nameField) ∈
      _customize_field_names
        ⟨[("name", "customized")], [("cost", "field_names")]⟩ Interface.api
        [("name", nameField), ("cost", costField)] ∧
    "name" ∉
      (_customize_field_names
        ⟨[("name", "customized")], [("cost", "field_names")]⟩ Interface.api
        [("name", nameField), ("cost", costField)]).map Prod.fst ∧
    ("cost", costField) ∈
      _customize_field_names
        ⟨[("name", "customized")], [("cost", "field_names")]⟩ Interface.api
        [("name", nameField), ("cost", costField)] ∧
    ("field_names", costField) ∈
      _customize_field_names
        ⟨[("name", "customized")], [("cost", "field_names")]⟩ Interface.cli
        [("name", nameField), ("cost", costField)] ∧
    "cost" ∉
      (_customize_field_names
        ⟨[("name", "customized")], [("cost", "field_names")]⟩ Interface.cli
        [("name", nameField), ("cost", costField)]).map Prod.fst ∧
    ("name", nameField) ∈
      _customize_field_names
        ⟨[("name", "customized")], [("cost", "field_names")]⟩ Interface.cli
        [("name", nameField), ("cost", costField)] ∧
    _customize_field_names ⟨[], [("cost", "field_names")]⟩ Interface.cli
        [("name", nameField), ("cost", costField)]
      = _customize_field_names
          ⟨[("name", "customized")], [("cost", "field_names")]⟩ Interface.cli
          [("name", nameField), ("cost", costField)] ∧
    _customize_field_names ⟨[("name", "customized")], []⟩ Interface.api
        [("name", nameField), ("cost", costField)]
      = _customize_field_names
          ⟨[("name", "customized")], [("cost", "field_names")]⟩ Interface.api
          [("name", nameField), ("cost", costField)] ∧
    _customize_field_names
        ⟨[("name", "customized")], [("cost", "field_names")]⟩
        Interface.default [("name", nameField), ("cost", costField)]
      = [("name", nameField), ("cost", costField)] :=
  customize_field_names_remap
    ⟨[("name", "customized")], [("cost", "field_names")]⟩
    [("name", nameField), ("cost", costField)] [] [] "name" "cost" "cost"
    "name" "customized" "field_names" nameField costField costField nameField
    rfl (by simp) rfl (by simp) rfl (by simp) rfl (by simp) (by decide)
    (by decide)

/-- C5: remapping is lenient: a remap entry whose key matches no declared
field is ignored, remapping never adds or removes entries, and on a schema
with zero fields the output is the empty mapping under every interface. -/
theorem customize_field_names_lenient (i : Interface) (m : Meta)
    (restA restC : List (String × String)) (c r c' r' : String)
    (fields : List (String × Field))
    (h : ∀ nf ∈ fields, nf.1 ≠ c) (h' : ∀ nf ∈ fields, nf.1 ≠ c') :
    _customize_field_names ⟨(c, r) :: restA, m.cli_names⟩ Interface.api
        fields
      = _customize_field_names ⟨restA, m.cli_names⟩ Interface.api fields ∧
    _customize_field_names ⟨m.api_names, (c', r') :: restC⟩ Interface.cli
        fields
      = _customize_field_names ⟨m.api_names, restC⟩ Interface.cli fields ∧
    _customize_field_names m i [] = [] ∧
    (_customize_field_names m i fields).length = fields.length := by
  refine ⟨?_, ?_, by cases i <;> rfl, by cases i <;> simp [_customize_field_names]⟩
  · show fields.map (remapName ((c, r) :: restA))
        = fields.map (remapName restA)
    exact List.map_congr_left fun nf hnf =>
      remapName_head_irrelevant (h nf hnf)
  · show fields.map (remapName ((c', r') :: restC))
        = fields.map (remapName restC)
    exact List.map_congr_left fun nf hnf =>
      remapName_head_irrelevant (h' nf hnf)

/-- Witness for C5: the nonexistent-field remap tables the shipped tests
install on `EmptyEntity.Meta` are ignored on the empty field set. -/
theorem customize_field_names_lenient_witness :
    _customize_field_names
        ⟨[("these_fields", "do_not_exist")], [("on", "EmptyEntity")]⟩
        Interface.api []
      = _customize_field_names ⟨[], [("on", "EmptyEntity")]⟩
          Interface.api [] ∧
    _customize_field_names
        ⟨[("these_fields", "do_not_exist")], [("on", "EmptyEntity")]⟩
        Interface.cli []
      = _customize_field_names ⟨[("these_fields", "do_not_exist")], []⟩
          Interface.cli [] ∧
    _customize_field_names
        ⟨[("these_fields", "do_not_exist")], [("on", "EmptyEntity")]⟩
        Interface.api [] = [] ∧
    (_customize_field_names
        ⟨[("these_fields", "do_not_exist")], [("on", "EmptyEntity")]⟩
        Interface.api []).length = ([] : List (String × Field)).length :=
  customize_field_names_lenient Interface.api
    ⟨[("these_fields", "do_not_exist")], [("on", "EmptyEntity")]⟩ [] []
    "these_fields" "do_not_exist" "on" "EmptyEntity" [] (by simp) (by simp)

/-- C6: every schema with zero declared fields yields an empty attribute
mapping from `attributes` with no overrides under every interface, and an
empty field view from `_customize_field_names`; neither operation fails. -/
theorem attributes_empty_schema (e : Entity) (m : Meta) (i : Interface)
    (seed : Nat) (h : e.get_fields = []) :
    attributes m ⟨e, i⟩ seed [] = Except.ok [] ∧
    _customize_field_names m i e.get_fields = [] := by
  obtain ⟨fs⟩ := e
  simp only [Entity.get_fields] at h
  subst h
  exact ⟨by cases i <;> rfl, by cases i <;> rfl⟩

/-- Witness for C6: `Factory(EmptyEntity).attributes()` returns the empty
mapping under the API interface. -/
theorem attributes_empty_schema_witness :
    attributes ⟨[], []⟩ ⟨EmptyEntity, Interface.api⟩ 0 [] = Except.ok [] ∧
    _customize_field_names ⟨[], []⟩ Interface.api EmptyEntity.get_fields
      = [] :=
  attributes_empty_schema EmptyEntity ⟨[], []⟩ Interface.api 0 rfl

/-- C10: the remap tables are read from the mutable `Meta` state at the
moment `_customize_field_names` runs, not captured at schema definition or
factory construction: the field view of every factory is a function of the
`Meta` supplied at the call, and for one and the same factory value bound
to `NonEmptyEntity` the view changes when the `Meta` state is reassigned
from empty tables to the tables the shipped tests install. -/
theorem customize_field_names_meta_at_call :
    (∀ (fac : Factory) (m : Meta),
      fieldView m fac
        = _customize_field_names m fac.interface fac.entity.get_fields) ∧
    fieldView ⟨[], []⟩ ⟨NonEmptyEntity, Interface.api⟩
      = [("name", nameField), ("cost", costField)] ∧
    fieldView ⟨[("name", "customized")], [("cost", "field_names")]⟩
        ⟨NonEmptyEntity, Interface.api⟩
      = [("customized", nameField), ("cost", costField)] ∧
    fieldView ⟨[("name", "customized")], [("cost", "field_names")]⟩
        ⟨NonEmptyEntity, Interface.cli⟩
      = [("name", nameField), ("field_names", costField)] :=
  ⟨fun _ _ => rfl, rfl, rfl, rfl⟩

end Robottelo
